import Mathlib

/-!
Shallow embedding of the order-placement transaction and the order-status
state machine of the rerendet storefront (controllers/orderController.js,
models/Product.js), together with the input-sanitizer helpers that the
controller imports.  Currency amounts are modelled as rationals; JavaScript
falsiness of optional strings is modelled by the empty string, and a missing
numeric field by the value zero where the source only tests truthiness.
-/

namespace Rerendet

attribute [local semireducible] Rat.add Rat.mul Rat.sub Rat.inv Rat.ofScientific

deriving instance DecidableEq for Except

/-- Two-decimal rounding on rational currency amounts. -/
def round2 (q : ℚ) : ℚ := ((round (q * 100) : ℤ) : ℚ) / 100

/-- Modelled from the spec: `sanitizeAmount` (utils/inputSanitizer.js, not
under src/) normalizes a currency amount; the spec only constrains amounts
"within a small rounding tolerance", so it is modelled as rounding to two
decimal places. -/
def sanitizeAmount (q : ℚ) : ℚ := round2 q

/-- Modelled from the spec: free-text sanitation "against markup/script
injection" (utils/inputSanitizer.js, not under src/), modelled as stripping
the angle-bracket characters. -/
def sanitizeString (s : String) : String :=
  String.mk (s.data.filter (fun c => !(c == '<' || c == '>')))

/-- Modelled from the spec: email format validation
(utils/inputSanitizer.js, not under src/); an address without an at-sign is
rejected (empty result), otherwise kept. -/
def sanitizeEmail (e : String) : String :=
  if e.data.contains '@' then e else ""

/-- Modelled from the spec: phone normalization and format validation
(utils/inputSanitizer.js, not under src/); digits are kept and a number with
fewer than seven digits is rejected (empty result). -/
def sanitizePhone (p : String) : String :=
  let ds := p.data.filter Char.isDigit
  if 7 ≤ ds.length then String.mk ds else ""

/-- JavaScript `a || b` on strings: the empty string is falsy. -/
def jsOrS (a b : String) : String := if a = "" then b else a

/-- JavaScript `a || b` where `a` is a possibly-undefined number: `undefined`
and `0` are falsy. -/
def jsOrQ (a : Option ℚ) (b : ℚ) : ℚ :=
  match a with
  | none => b
  | some x => if x = 0 then b else x

/-- JavaScript `parseInt` on a numeric value: truncation toward zero. -/
def jsTrunc (q : ℚ) : Int := if 0 ≤ q then ⌊q⌋ else ⌈q⌉

/-- Size variant with its price (productSchema.sizes). -/
structure SizePrice where
  size : String
  price : ℚ
deriving DecidableEq

/-- Inventory subdocument of a product (productSchema.inventory). -/
structure Inventory where
  stock : Int
  lowStockAlert : Int
deriving DecidableEq

/-- Product document.  Only the fields read or written by the embedded
operations are carried.  The schema declares no flat `price` path, but the
controller reads `product.price`; the field is kept as an `Option` that is
`none` on every document produced by the schema. -/
structure Product where
  id : Nat
  name : String
  sizes : List SizePrice
  price : Option ℚ := none
  images : List String
  inventory : Inventory
  inStock : Bool
deriving DecidableEq

/-- Product collection, modelled as a list of documents with distinct ids. -/
def Db := List Product
deriving DecidableEq

/-- Mongoose `Product.findById`. -/
def findById (db : Db) (pid : Nat) : Option Product :=
  List.find? (fun p => p.id == pid) db

/-- Schema validation relevant to the inventory invariant: the schema
declares `min: 0` on `inventory.stock` and `inventory.lowStockAlert`. -/
def validateProduct (p : Product) : Bool :=
  decide (0 ≤ p.inventory.stock) && decide (0 ≤ p.inventory.lowStockAlert)

/-- Mongoose `document.save()` on a product: validation runs first, then the
pre-save hook re-derives `inStock` from the actual stock
(the pre-save hook of productSchema, the line that assigns `stock > 0` to
`inStock`; the slug-generation part of the hook touches no inventory field
and is not embedded). -/
def saveProduct (p : Product) : Except String Product :=
  if validateProduct p then
    Except.ok { p with inStock := decide (0 < p.inventory.stock) }
  else
    Except.error "ValidationError"

/-- Method `productSchema.methods.updateStock`. -/
def updateStock (p : Product) (newStock : Int) : Except String Product :=
  saveProduct { p with inventory.stock := newStock, inStock := decide (0 < newStock) }

/-- Method `productSchema.methods.decreaseStock`. -/
def decreaseStock (p : Product) (quantity : Int) : Except String Product :=
  if quantity ≤ p.inventory.stock then
    saveProduct { p with inventory.stock := p.inventory.stock - quantity,
                         inStock := decide (0 < p.inventory.stock - quantity) }
  else
    Except.error "Insufficient stock"

/-- Method `productSchema.methods.increaseStock`. -/
def increaseStock (p : Product) (quantity : Int) : Except String Product :=
  saveProduct { p with inventory.stock := p.inventory.stock + quantity, inStock := true }

/-- Shipping address as submitted with an order; absent fields are the empty
string (both `undefined` and the empty string are falsy in the source). -/
structure Address where
  firstName : String
  lastName : String
  email : String
  phone : String
  address : String
  city : String
  county : String
  country : String
  postalCode : String
deriving DecidableEq

/-- The `sanitizeObject` pass of createOrder followed by the dedicated email
and phone sanitizers (orderController lines 49-51); `sanitizeEmail` and
`sanitizePhone` are applied to the raw submitted values, as in the source. -/
def sanitizeAddress (a : Address) : Address :=
  { firstName := sanitizeString a.firstName
    lastName := sanitizeString a.lastName
    email := sanitizeEmail a.email
    phone := sanitizePhone a.phone
    address := sanitizeString a.address
    city := sanitizeString a.city
    county := sanitizeString a.county
    country := sanitizeString a.country
    postalCode := sanitizeString a.postalCode }

/-- Cart line item as submitted by the client.  A missing product reference is
`none`; a missing name, size or image is the empty string; a missing price or
quantity is `0` (the source only ever tests these fields for truthiness, and
`undefined` and `0` are both falsy). -/
structure ReqItem where
  product : Option Nat
  name : String
  price : ℚ
  quantity : ℚ
  size : String
  image : String := ""
deriving DecidableEq

/-- Body of `POST /api/orders`. -/
structure CreateOrderReq where
  shippingAddress : Address
  paymentMethod : String
  items : Option (List ReqItem)
  subtotal : ℚ := 0
  shippingCost : ℚ
  tax : ℚ := 0
  totalAmount : ℚ
  notes : String := ""
deriving DecidableEq

/-- Authenticated requester. -/
structure User where
  id : Nat
  userType : String
  role : String
deriving DecidableEq

/-- Admin test of createOrder (line 35). -/
def isAdminUser (u : User) : Bool :=
  u.userType == "admin" || u.role == "admin" || u.role == "super-admin"

/-- Line item as persisted on an order. -/
structure OrderItem where
  product : Nat
  name : String
  price : ℚ
  quantity : Int
  size : String
  image : String
  itemTotal : ℚ
deriving DecidableEq

/-- Entry of the tracking-history log. -/
structure TrackEntry where
  status : String
  location : String
  message : String
  timestamp : Nat
deriving DecidableEq

/-- Order document.  `trackingNumber`, `adminNotes` use the empty string for
an unset value (falsy in the source). -/
structure Order where
  orderNumber : String
  user : Nat
  items : List OrderItem
  shippingAddress : Address
  subtotal : ℚ
  shippingCost : ℚ
  tax : ℚ
  total : ℚ
  paymentMethod : String
  paymentStatus : String
  status : String
  notes : String
  trackingNumber : String := ""
  adminNotes : String := ""
  statusUpdatedAt : Option Nat := none
  trackingHistory : List TrackEntry
deriving DecidableEq

/-- Failure cases of createOrder, in the order the source can produce them;
each carries the data interpolated into its response message. -/
inductive CreateErr where
  | adminForbidden
  | itemsRequired
  | addressPaymentRequired
  | emailPhoneRequired
  | invalidItem
  | productNotFound (name : String)
  | insufficientStock (name : String) (available : Int) (requested : ℚ)
  | amountValidation
deriving DecidableEq

/-- HTTP status code of each createOrder failure. -/
def createErrStatus : CreateErr → Nat
  | .adminForbidden => 403
  | _ => 400

/-- Response message of each createOrder failure, as in the source. -/
def createErrMessage : CreateErr → String
  | .adminForbidden =>
      "Administrators are not allowed to place orders. Please use a regular customer account."
  | .itemsRequired => "Order items are required"
  | .addressPaymentRequired => "Shipping address and payment method are required"
  | .emailPhoneRequired => "Valid email and phone number are required"
  | .invalidItem => "Invalid item data. All item fields are required."
  | .productNotFound n => "Product not found: " ++ n
  | .insufficientStock n a q =>
      "Insufficient stock for " ++ n ++ ". Available: " ++ toString a ++
        ", Requested: " ++ toString q
  | .amountValidation => "Order amount validation failed. Please refresh your cart and try again."

/-- Product id used for lookup once the truthiness check has passed. -/
def jsProductId (it : ReqItem) : Nat := it.product.getD 0

/-- Truthiness validation of one line item (line 96): rejects exactly the
items with a falsy product, name, price, quantity or size. -/
def itemValid (it : ReqItem) : Bool :=
  !(it.product == none) && !(it.name == "") && !(it.price == 0) &&
    !(it.quantity == 0) && !(it.size == "")

/-- Authoritative unit-price resolution (line 129):
`product.sizes.find(s => s.size === item.size)?.price || product.price || item.price`. -/
def resolveItemPrice (p : Product) (it : ReqItem) : ℚ :=
  jsOrQ ((List.find? (fun sp => sp.size == it.size) p.sizes).map SizePrice.price)
    (jsOrQ p.price it.price)

/-- Pending stock decrement recorded while walking the cart. -/
structure StockUpdate where
  productId : Nat
  quantity : Int
  currentStock : Int
deriving DecidableEq

/-- The per-item loop of createOrder (lines 94-149): validates each item,
loads its product, checks stock, resolves the authoritative price, and
accumulates the order items, the running subtotal and the pending stock
updates.  The product collection is only read here; decrements happen after
the loop. -/
def processItems (db : Db) : List ReqItem → Except CreateErr (List OrderItem × ℚ × List StockUpdate)
  | [] => Except.ok ([], 0, [])
  | it :: rest =>
    if itemValid it = false then Except.error CreateErr.invalidItem
    else
      match findById db (jsProductId it) with
      | none => Except.error (CreateErr.productNotFound it.name)
      | some p =>
        if (p.inventory.stock : ℚ) < it.quantity then
          Except.error (CreateErr.insufficientStock p.name p.inventory.stock it.quantity)
        else
          let itemPrice := resolveItemPrice p it
          let itemQuantity := jsTrunc it.quantity
          let itemTotal := itemPrice * (itemQuantity : ℚ)
          match processItems db rest with
          | Except.error e => Except.error e
          | Except.ok (ois, sub, sus) =>
            Except.ok
              ({ product := p.id
                 name := it.name
                 price := itemPrice
                 quantity := itemQuantity
                 size := it.size
                 image := jsOrS it.image (jsOrS (p.images.headD "") "/default-product.jpg")
                 itemTotal := itemTotal } :: ois,
               itemTotal + sub,
               { productId := p.id
                 quantity := itemQuantity
                 currentStock := p.inventory.stock } :: sus)

/-- One `Product.findByIdAndUpdate` of the post-save decrement loop
(lines 225-245): `$inc` the stock by the negated quantity and `$set` the
`inStock` flag from the stock captured when the cart was walked.  The update
API runs no schema validators and no save hooks. -/
def applyStockUpdate (db : Db) (u : StockUpdate) : Db :=
  List.map
    (fun p =>
      if p.id == u.productId then
        { p with inventory.stock := p.inventory.stock - u.quantity,
                 inStock := decide (0 < u.currentStock - u.quantity) }
      else p)
    db

/-- The whole decrement loop, in cart order. -/
def applyStockUpdates (db : Db) (sus : List StockUpdate) : Db :=
  List.foldl applyStockUpdate db sus

/-- Server-side total recomputation of createOrder (lines 152-155). -/
def serverCalculatedTotal (calculatedSubtotal shippingCost : ℚ) : ℚ :=
  sanitizeAmount
    (sanitizeAmount calculatedSubtotal + sanitizeAmount shippingCost +
      sanitizeAmount (sanitizeAmount calculatedSubtotal * 0.16))

/-- The order-placement transaction (createOrder).  The order number and the
clock are external inputs.  The second component of the result is the product
collection after the transaction: on every failure path the transaction is
aborted and the collection is returned unchanged; on success the stock
decrements have been applied. -/
def createOrder (u : User) (rq : CreateOrderReq) (orderNumber : String) (now : Nat)
    (db : Db) : Except CreateErr Order × Db :=
  if isAdminUser u then (Except.error CreateErr.adminForbidden, db)
  else
    let sAddr := sanitizeAddress rq.shippingAddress
    match rq.items with
    | none => (Except.error CreateErr.itemsRequired, db)
    | some its =>
      if its = [] then (Except.error CreateErr.itemsRequired, db)
      else if rq.paymentMethod = "" then (Except.error CreateErr.addressPaymentRequired, db)
      else if sAddr.email = "" ∨ sAddr.phone = "" then
        (Except.error CreateErr.emailPhoneRequired, db)
      else
        match processItems db its with
        | Except.error e => (Except.error e, db)
        | Except.ok (orderItems, calculatedSubtotal, stockUpdates) =>
          let finalSubtotal := sanitizeAmount calculatedSubtotal
          let finalShippingCost := sanitizeAmount rq.shippingCost
          let finalTax := sanitizeAmount (finalSubtotal * 0.16)
          let calculatedTotal := sanitizeAmount (finalSubtotal + finalShippingCost + finalTax)
          let clientTotal := sanitizeAmount rq.totalAmount
          if 1 < |calculatedTotal - clientTotal| then
            (Except.error CreateErr.amountValidation, db)
          else
            (Except.ok
              { orderNumber := orderNumber
                user := u.id
                items := orderItems
                shippingAddress := { sAddr with country := jsOrS sAddr.country "Kenya" }
                subtotal := finalSubtotal
                shippingCost := finalShippingCost
                tax := finalTax
                total := calculatedTotal
                paymentMethod := rq.paymentMethod
                paymentStatus := if rq.paymentMethod = "cod" then "pending" else "paid"
                status := "confirmed"
                notes := rq.notes
                trackingNumber := ""
                adminNotes := ""
                statusUpdatedAt := none
                trackingHistory :=
                  [{ status := "confirmed"
                     location := ""
                     message := "Order received and confirmed"
                     timestamp := now }] },
             applyStockUpdates db stockUpdates)

/-- Body of `PUT /api/orders/:id/status`; absent fields are the empty
string. -/
structure UpdateStatusReq where
  status : String
  trackingNumber : String := ""
  adminNotes : String := ""
  location : String := ""
  message : String := ""
deriving DecidableEq

/-- Strict transition table of updateOrderStatus (lines 546-554); a status
outside the table has no outgoing transitions (`validTransitions[s] || []`). -/
def validTransitions : String → List String
  | "pending" => ["confirmed", "cancelled", "processing"]
  | "confirmed" => ["processing", "cancelled", "shipped"]
  | "processing" => ["shipped", "cancelled"]
  | "shipped" => ["delivered", "returned"]
  | "delivered" => ["returned"]
  | _ => []

/-- Failure cases of updateOrderStatus. -/
inductive UpdErr where
  | orderNotFound
  | invalidTransition (fromStatus toStatus : String)
  | trackingRequired
deriving DecidableEq

/-- HTTP status code of each updateOrderStatus failure. -/
def updErrStatus : UpdErr → Nat
  | .orderNotFound => 404
  | _ => 400

/-- Response message of each updateOrderStatus failure, as in the source. -/
def updErrMessage : UpdErr → String
  | .orderNotFound => "Order not found"
  | .invalidTransition f t =>
      "Invalid status transition. Cannot change order from '" ++ f ++ "' to '" ++ t ++ "'."
  | .trackingRequired => "Tracking number is required when marking an order as shipped."

/-- The status-update operation (updateOrderStatus): looks the order up,
applies the strict transition check only when a truthy target differs from
the current status, requires a tracking number when moving to `shipped`,
updates the fields and appends one tracking-history entry. -/
def updateOrderStatus (orderOpt : Option Order) (rq : UpdateStatusReq) (now : Nat) :
    Except UpdErr Order :=
  match orderOpt with
  | none => Except.error UpdErr.orderNotFound
  | some o =>
    if rq.status ≠ "" ∧ o.status ≠ rq.status ∧ rq.status ∉ validTransitions o.status then
      Except.error (UpdErr.invalidTransition o.status rq.status)
    else if rq.status = "shipped" ∧ rq.trackingNumber = "" ∧ o.trackingNumber = "" then
      Except.error UpdErr.trackingRequired
    else
      let newStatus := if rq.status ≠ "" then rq.status else o.status
      Except.ok
        { o with
          status := newStatus
          trackingNumber := if rq.trackingNumber ≠ "" then rq.trackingNumber else o.trackingNumber
          adminNotes := if rq.adminNotes ≠ "" then rq.adminNotes else o.adminNotes
          statusUpdatedAt := some now
          trackingHistory :=
            o.trackingHistory ++
              [{ status := newStatus
                 location := rq.location
                 message :=
                   jsOrS rq.message
                     ("Order status updated to " ++ rq.status ++
                       (if rq.trackingNumber ≠ "" then ". Tracking: " ++ rq.trackingNumber else ""))
                 timestamp := now }] }

/-! ## Rounding lemmas -/

/-- Two-decimal rounding moves an amount by at most half a cent. -/
lemma abs_round2_sub (q : ℚ) : |round2 q - q| ≤ 1 / 200 := by
  have h : |q * 100 - round (q * 100)| ≤ 1 / 2 := abs_sub_round (q * 100)
  have e : round2 q - q = -((q * 100 - (round (q * 100) : ℚ)) / 100) := by
    unfold round2; ring
  rw [e, abs_neg, abs_div, abs_of_pos (show (0:ℚ) < 100 by norm_num)]
  linarith

/-- A whole number of cents is a fixed point of two-decimal rounding. -/
lemma round2_cents (k : ℤ) : round2 ((k : ℚ) / 100) = (k : ℚ) / 100 := by
  unfold round2
  rw [div_mul_cancel₀ _ (show (100:ℚ) ≠ 0 by norm_num), round_intCast]

/-- Every rounded amount is a whole number of cents. -/
lemma round2_form (q : ℚ) : ∃ k : ℤ, round2 q = (k : ℚ) / 100 :=
  ⟨round (q * 100), rfl⟩

/-- A sum of three whole-cent amounts is a fixed point of two-decimal
rounding. -/
lemma round2_add_three {a b c : ℚ} (ha : ∃ k : ℤ, a = (k : ℚ) / 100)
    (hb : ∃ k : ℤ, b = (k : ℚ) / 100) (hc : ∃ k : ℤ, c = (k : ℚ) / 100) :
    round2 (a + b + c) = a + b + c := by
  obtain ⟨ka, rfl⟩ := ha
  obtain ⟨kb, rfl⟩ := hb
  obtain ⟨kc, rfl⟩ := hc
  have e : (ka : ℚ) / 100 + (kb : ℚ) / 100 + (kc : ℚ) / 100 = ((ka + kb + kc : ℤ) : ℚ) / 100 := by
    push_cast; ring
  rw [e, round2_cents]

/-! ## Product save invariant -/

/-- Every successful product save leaves `inStock` equal to `stock > 0` and a
non-negative stock: validation enforces the schema minimum and the pre-save
hook re-derives the flag.  `updateStock`, `decreaseStock` and `increaseStock`
all persist through `saveProduct`, so the lemma covers the three methods. -/
lemma saveProduct_invariant (p p2 : Product) (h : saveProduct p = Except.ok p2) :
    p2.inStock = decide (0 < p2.inventory.stock) ∧ 0 ≤ p2.inventory.stock := by
  unfold saveProduct at h
  split at h
  · rename_i hv
    simp only [validateProduct, Bool.and_eq_true, decide_eq_true_eq] at hv
    injection h with h
    subst h
    exact ⟨rfl, hv.1⟩
  · exact absurd h (by simp)

/-! ## processItems lemmas -/

/-- The running subtotal of the cart walk is the sum of the stored line
totals `price × quantity`. -/
lemma processItems_subtotal (db : Db) :
    ∀ (its : List ReqItem) (ois : List OrderItem) (sub : ℚ) (sus : List StockUpdate),
      processItems db its = Except.ok (ois, sub, sus) →
      sub = (ois.map (fun i => i.price * (i.quantity : ℚ))).sum := by
  intro its
  induction its with
  | nil =>
    intro ois sub sus h
    simp only [processItems, Except.ok.injEq, Prod.mk.injEq] at h
    obtain ⟨h1, h2, h3⟩ := h
    subst h1; subst h2; simp
  | cons it rest ih =>
    intro ois sub sus h
    simp only [processItems] at h
    split at h
    · exact absurd h (by simp)
    · split at h
      · exact absurd h (by simp)
      · rename_i p hfind
        split at h
        · exact absurd h (by simp)
        · cases heq : processItems db rest with
          | error e => rw [heq] at h; exact absurd h (by simp)
          | ok tr =>
            obtain ⟨ois2, sub2, sus2⟩ := tr
            rw [heq] at h
            simp only [Except.ok.injEq, Prod.mk.injEq] at h
            obtain ⟨h1, h2, h3⟩ := h
            subst h1; subst h2
            have hs := ih ois2 sub2 sus2 heq
            subst hs
            simp [List.map_cons, List.sum_cons]

/-- Every stored line item carries the authoritative resolved price of the
product looked up for the corresponding cart line. -/
lemma processItems_prices (db : Db) :
    ∀ (its : List ReqItem) (ois : List OrderItem) (sub : ℚ) (sus : List StockUpdate),
      processItems db its = Except.ok (ois, sub, sus) →
      List.Forall₂
        (fun it oi => ∃ p, findById db (jsProductId it) = some p ∧ oi.price = resolveItemPrice p it)
        its ois := by
  intro its
  induction its with
  | nil =>
    intro ois sub sus h
    simp only [processItems, Except.ok.injEq, Prod.mk.injEq] at h
    obtain ⟨h1, h2, h3⟩ := h
    subst h1
    exact List.Forall₂.nil
  | cons it rest ih =>
    intro ois sub sus h
    simp only [processItems] at h
    split at h
    · exact absurd h (by simp)
    · split at h
      · exact absurd h (by simp)
      · rename_i p hfind
        split at h
        · exact absurd h (by simp)
        · cases heq : processItems db rest with
          | error e => rw [heq] at h; exact absurd h (by simp)
          | ok tr =>
            obtain ⟨ois2, sub2, sus2⟩ := tr
            rw [heq] at h
            simp only [Except.ok.injEq, Prod.mk.injEq] at h
            obtain ⟨h1, h2, h3⟩ := h
            subst h1
            exact List.Forall₂.cons ⟨p, hfind, rfl⟩ (ih ois2 sub2 sus2 heq)

/-- A cart containing a structurally invalid item never processes
successfully; the failure carries a 400 status. -/
lemma processItems_invalid (db : Db) :
    ∀ (its : List ReqItem) (it : ReqItem), it ∈ its → itemValid it = false →
      ∃ e, processItems db its = Except.error e ∧ createErrStatus e = 400 := by
  intro its
  induction its with
  | nil => intro it hmem; exact absurd hmem (List.not_mem_nil it)
  | cons j rest ih =>
    intro it hmem hbad
    by_cases hj : itemValid j = false
    · exact ⟨CreateErr.invalidItem, by simp [processItems, hj], rfl⟩
    · have hmem2 : it ∈ rest := by
        rcases List.mem_cons.mp hmem with h | h
        · exact absurd hbad (by rw [h]; exact hj)
        · exact h
      obtain ⟨e, he, hst⟩ := ih it hmem2 hbad
      simp only [processItems, hj, if_false]
      cases hfind : findById db (jsProductId j) with
      | none => exact ⟨CreateErr.productNotFound j.name, rfl, rfl⟩
      | some p =>
        by_cases hstock : (p.inventory.stock : ℚ) < j.quantity
        · exact ⟨CreateErr.insufficientStock p.name p.inventory.stock j.quantity,
            by simp [hstock], rfl⟩
        · exact ⟨e, by simp [hstock, he], hst⟩

/-- When every earlier cart line is valid, resolvable and within stock, and a
later line requests more than the available stock, the walk fails with the
insufficient-stock error naming that product and its available quantity. -/
lemma processItems_insufficient (db : Db) :
    ∀ (its₁ : List ReqItem) (it : ReqItem) (its₂ : List ReqItem) (p : Product),
      (∀ j ∈ its₁, itemValid j = true ∧
        ∃ q, findById db (jsProductId j) = some q ∧ ¬((q.inventory.stock : ℚ) < j.quantity)) →
      itemValid it = true →
      findById db (jsProductId it) = some p →
      (p.inventory.stock : ℚ) < it.quantity →
      processItems db (its₁ ++ it :: its₂) =
        Except.error (CreateErr.insufficientStock p.name p.inventory.stock it.quantity) := by
  intro its₁
  induction its₁ with
  | nil =>
    intro it its₂ p _ hvalid hfind hstock
    simp only [List.nil_append, processItems, hvalid, hfind, hstock, if_true]
    simp
  | cons j rest ih =>
    intro it its₂ p hpre hvalid hfind hstock
    obtain ⟨hjv, q, hjfind, hjstock⟩ := hpre j (List.mem_cons_self j rest)
    have hrest : ∀ k ∈ rest, itemValid k = true ∧
        ∃ q, findById db (jsProductId k) = some q ∧ ¬((q.inventory.stock : ℚ) < k.quantity) :=
      fun k hk => hpre k (List.mem_cons_of_mem j hk)
    have hrec := ih it its₂ p hrest hvalid hfind hstock
    simp only [List.cons_append, processItems, hjv, hjfind, hjstock, List.append_eq]
    rw [hrec]
    simp

/-- Inversion of a successful order placement: the request carried a
non-empty cart that processed successfully, and every persisted field is the
one built at line 188 of the controller. -/
lemma createOrder_ok_inv (u : User) (rq : CreateOrderReq) (orderNumber : String)
    (now : Nat) (db : Db) (o : Order) (db2 : Db)
    (h : createOrder u rq orderNumber now db = (Except.ok o, db2)) :
    ∃ its ois sub sus,
      rq.items = some its ∧
      processItems db its = Except.ok (ois, sub, sus) ∧
      o.items = ois ∧
      o.subtotal = sanitizeAmount sub ∧
      o.shippingCost = sanitizeAmount rq.shippingCost ∧
      o.tax = sanitizeAmount (sanitizeAmount sub * 0.16) ∧
      o.total = sanitizeAmount (sanitizeAmount sub + sanitizeAmount rq.shippingCost +
        sanitizeAmount (sanitizeAmount sub * 0.16)) ∧
      o.status = "confirmed" ∧
      o.paymentStatus = (if rq.paymentMethod = "cod" then "pending" else "paid") ∧
      o.trackingHistory = [⟨"confirmed", "", "Order received and confirmed", now⟩] ∧
      db2 = applyStockUpdates db sus := by
  simp only [createOrder] at h
  split at h
  · exact absurd h (by simp)
  · split at h
    · exact absurd h (by simp)
    · rename_i its hits
      split at h
      · exact absurd h (by simp)
      · split at h
        · exact absurd h (by simp)
        · split at h
          · exact absurd h (by simp)
          · cases heq : processItems db its with
            | error e => rw [heq] at h; exact absurd h (by simp)
            | ok tr =>
              obtain ⟨ois, sub, sus⟩ := tr
              rw [heq] at h
              simp only [] at h
              split at h
              · exact absurd h (by simp)
              · simp only [Prod.mk.injEq, Except.ok.injEq] at h
                obtain ⟨h1, h2⟩ := h
                subst h1
                exact ⟨its, ois, sub, sus, hits, heq, rfl, rfl, rfl, rfl, rfl, rfl, rfl, rfl,
                  h2.symm⟩

/-- C4: for every order and every requested target status different from the
current one, updateOrderStatus succeeds only when the target is listed in the
permitted transition table; cancelled and returned have no outgoing
transitions, and a target equal to the current status is exempt from the
transition check. -/
theorem updateOrderStatus_transition_table (ord : Order) (rq : UpdateStatusReq) (now : Nat)
    (o2 : Order) (f t : String) :
    (rq.status ≠ "" → rq.status ≠ ord.status →
      updateOrderStatus (some ord) rq now = Except.ok o2 →
      rq.status ∈ validTransitions ord.status)
  ∧ (validTransitions "pending" = ["confirmed", "cancelled", "processing"] ∧
     validTransitions "confirmed" = ["processing", "cancelled", "shipped"] ∧
     validTransitions "processing" = ["shipped", "cancelled"] ∧
     validTransitions "shipped" = ["delivered", "returned"] ∧
     validTransitions "delivered" = ["returned"] ∧
     validTransitions "cancelled" = [] ∧
     validTransitions "returned" = [])
  ∧ (rq.status = ord.status →
      updateOrderStatus (some ord) rq now ≠ Except.error (UpdErr.invalidTransition f t)) := by
  refine ⟨?_, ⟨rfl, rfl, rfl, rfl, rfl, rfl, rfl⟩, ?_⟩
  · intro h1 h2 h3
    by_contra hmem
    simp only [updateOrderStatus] at h3
    rw [if_pos ⟨h1, Ne.symm h2, hmem⟩] at h3
    exact Except.noConfusion h3
  · intro heq
    simp only [updateOrderStatus]
    rw [if_neg (by intro hc; exact hc.2.1 heq.symm)]
    split
    · intro hcon
      injection hcon with he
      exact UpdErr.noConfusion he
    · intro hcon
      exact Except.noConfusion hcon

/-- C5: moving an order to `shipped` without any tracking number (existing or
supplied) fails with a 400 error — specifically the tracking-number error
whenever the transition itself is permitted — and supplying a tracking number
makes the permitted call succeed with that number persisted on the order. -/
theorem updateOrderStatus_shipped_tracking (ord : Order) (rq : UpdateStatusReq) (now : Nat) :
    (rq.status = "shipped" → rq.trackingNumber = "" → ord.trackingNumber = "" →
      ∃ e, updateOrderStatus (some ord) rq now = Except.error e ∧ updErrStatus e = 400)
  ∧ (rq.status = "shipped" → rq.trackingNumber = "" → ord.trackingNumber = "" →
      ("shipped" ∈ validTransitions ord.status ∨ ord.status = "shipped") →
      updateOrderStatus (some ord) rq now = Except.error UpdErr.trackingRequired)
  ∧ (rq.status = "shipped" → rq.trackingNumber ≠ "" →
      ("shipped" ∈ validTransitions ord.status ∨ ord.status = "shipped") →
      (updateOrderStatus (some ord) rq now).toOption.map Order.trackingNumber =
        some rq.trackingNumber) := by
  refine ⟨?_, ?_, ?_⟩
  · intro hs ht ho
    simp only [updateOrderStatus]
    split
    · exact ⟨UpdErr.invalidTransition ord.status rq.status, rfl, rfl⟩
    · rw [if_pos ⟨hs, ht, ho⟩]
      exact ⟨UpdErr.trackingRequired, rfl, rfl⟩
  · intro hs ht ho htr
    simp only [updateOrderStatus]
    rw [if_neg (by
      intro hc
      rcases htr with hm | he
      · exact hc.2.2 (by rw [hs]; exact hm)
      · exact hc.2.1 (by rw [he, hs]))]
    rw [if_pos ⟨hs, ht, ho⟩]
  · intro hs ht htr
    simp only [updateOrderStatus]
    rw [if_neg (by
      intro hc
      rcases htr with hm | he
      · exact hc.2.2 (by rw [hs]; exact hm)
      · exact hc.2.1 (by rw [he, hs]))]
    rw [if_neg (by intro hc; exact ht hc.2.1)]
    simp [Except.toOption, ht]

/-- C10: every successful status update appends exactly one entry to the
tracking history, leaves the existing entries untouched, and stamps
`statusUpdatedAt`, also when the requested status equals the current one. -/
theorem updateOrderStatus_appends_history (ord : Order) (rq : UpdateStatusReq) (now : Nat)
    (o2 : Order) :
    updateOrderStatus (some ord) rq now = Except.ok o2 →
    o2.trackingHistory.length = ord.trackingHistory.length + 1 ∧
    o2.trackingHistory.take ord.trackingHistory.length = ord.trackingHistory ∧
    o2.statusUpdatedAt = some now := by
  intro h
  simp only [updateOrderStatus] at h
  split at h
  · exact absurd h (by simp)
  · split at h
    · exact absurd h (by simp)
    · injection h with h
      subst h
      refine ⟨by simp, by simp, rfl⟩

/-- C1: whenever the server-recomputed total (resolved subtotal plus
client-supplied shipping cost plus 16% tax) differs from the client-submitted
`totalAmount` — a whole number of cents — by strictly more than 1.0 currency
unit, createOrder aborts with the 400 amount-validation failure, no order is
produced and the product collection is returned unchanged. -/
theorem createOrder_amount_guard (u : User) (rq : CreateOrderReq) (orderNumber : String)
    (now : Nat) (db : Db) (its : List ReqItem) (ois : List OrderItem) (sub : ℚ)
    (sus : List StockUpdate) (k : ℤ) :
    isAdminUser u = false →
    rq.items = some its → its ≠ [] →
    rq.paymentMethod ≠ "" →
    (sanitizeAddress rq.shippingAddress).email ≠ "" →
    (sanitizeAddress rq.shippingAddress).phone ≠ "" →
    processItems db its = Except.ok (ois, sub, sus) →
    rq.totalAmount = (k : ℚ) / 100 →
    1 < |serverCalculatedTotal sub rq.shippingCost - rq.totalAmount| →
    createOrder u rq orderNumber now db = (Except.error CreateErr.amountValidation, db) ∧
    createErrStatus CreateErr.amountValidation = 400 := by
  intro hAdm hIts hNe hPay hEm hPh hProc hCents hDiff
  refine ⟨?_, rfl⟩
  have hguard : 1 < |sanitizeAmount (sanitizeAmount sub + sanitizeAmount rq.shippingCost +
      sanitizeAmount (sanitizeAmount sub * 0.16)) - sanitizeAmount rq.totalAmount| := by
    have hSan : sanitizeAmount rq.totalAmount = rq.totalAmount := by
      rw [hCents]; exact round2_cents k
    rw [hSan]
    unfold serverCalculatedTotal at hDiff
    exact hDiff
  simp only [createOrder, hAdm, Bool.false_eq_true, if_false, hIts]
  rw [if_neg hNe, if_neg hPay, if_neg (not_or.mpr ⟨hEm, hPh⟩), hProc]
  simp only [hguard, if_true]

/-- C3: when every cart line before some line is valid, resolvable and within
stock, and that line requests more than the available stock, createOrder
fails with the 400 insufficient-stock error naming the product and its
available quantity, and no product in the cart — the earlier ones included —
has its stock decremented. -/
theorem createOrder_insufficient_stock (u : User) (rq : CreateOrderReq) (orderNumber : String)
    (now : Nat) (db : Db) (its₁ : List ReqItem) (it : ReqItem) (its₂ : List ReqItem)
    (p : Product) :
    isAdminUser u = false →
    rq.items = some (its₁ ++ it :: its₂) →
    rq.paymentMethod ≠ "" →
    (sanitizeAddress rq.shippingAddress).email ≠ "" →
    (sanitizeAddress rq.shippingAddress).phone ≠ "" →
    (∀ j ∈ its₁, itemValid j = true ∧
      ∃ q, findById db (jsProductId j) = some q ∧ ¬((q.inventory.stock : ℚ) < j.quantity)) →
    itemValid it = true →
    findById db (jsProductId it) = some p →
    (p.inventory.stock : ℚ) < it.quantity →
    createOrder u rq orderNumber now db =
      (Except.error (CreateErr.insufficientStock p.name p.inventory.stock it.quantity), db) ∧
    createErrStatus (CreateErr.insufficientStock p.name p.inventory.stock it.quantity) = 400 ∧
    createErrMessage (CreateErr.insufficientStock p.name p.inventory.stock it.quantity) =
      "Insufficient stock for " ++ p.name ++ ". Available: " ++ toString p.inventory.stock ++
        ", Requested: " ++ toString it.quantity := by
  intro hAdm hIts hPay hEm hPh hPre hValid hFind hStock
  refine ⟨?_, rfl, rfl⟩
  have herr := processItems_insufficient db its₁ it its₂ p hPre hValid hFind hStock
  have hNe : its₁ ++ it :: its₂ ≠ [] := by simp
  simp only [createOrder, hAdm, Bool.false_eq_true, if_false, hIts]
  rw [if_neg hNe, if_neg hPay, if_neg (not_or.mpr ⟨hEm, hPh⟩), herr]

/-- C6 (amended): for a non-admin requester, createOrder answers 400 when the
items array is missing or empty, and when any line item has a falsy (missing
or zero) product reference, name, price, quantity or size; the check is
truthiness-based, so negative prices and negative or non-integer quantities
pass it. -/
theorem createOrder_structural_validation (u : User) (rq : CreateOrderReq)
    (orderNumber : String) (now : Nat) (db : Db) :
    isAdminUser u = false →
    ((rq.items = none ∨ rq.items = some []) →
      createOrder u rq orderNumber now db = (Except.error CreateErr.itemsRequired, db) ∧
      createErrStatus CreateErr.itemsRequired = 400)
  ∧ (∀ its it, rq.items = some its → it ∈ its → itemValid it = false →
      ∃ e, createOrder u rq orderNumber now db = (Except.error e, db) ∧
        createErrStatus e = 400) := by
  intro hAdm
  constructor
  · intro hcase
    refine ⟨?_, rfl⟩
    rcases hcase with h | h
    · simp [createOrder, hAdm, h]
    · simp [createOrder, hAdm, h]
  · intro its it hIts hMem hBad
    have hNe : its ≠ [] := List.ne_nil_of_mem hMem
    by_cases hPay : rq.paymentMethod = ""
    · refine ⟨CreateErr.addressPaymentRequired, ?_, rfl⟩
      simp only [createOrder, hAdm, Bool.false_eq_true, if_false, hIts]
      rw [if_neg hNe, if_pos hPay]
    · by_cases hEP : (sanitizeAddress rq.shippingAddress).email = "" ∨
        (sanitizeAddress rq.shippingAddress).phone = ""
      · refine ⟨CreateErr.emailPhoneRequired, ?_, rfl⟩
        simp only [createOrder, hAdm, Bool.false_eq_true, if_false, hIts]
        rw [if_neg hNe, if_neg hPay, if_pos hEP]
      · obtain ⟨e, hErr, hSt⟩ := processItems_invalid db its it hMem hBad
        refine ⟨e, ?_, hSt⟩
        simp only [createOrder, hAdm, Bool.false_eq_true, if_false, hIts]
        rw [if_neg hNe, if_neg hPay, if_neg hEP, hErr]

/-- C7: every order persisted by createOrder starts in status `confirmed`,
with paymentStatus `pending` for cash-on-delivery and `paid` otherwise, and a
tracking history whose first entry is the confirmed entry with message
"Order received and confirmed". -/
theorem createOrder_initial_state (u : User) (rq : CreateOrderReq) (orderNumber : String)
    (now : Nat) (db : Db) (o : Order) (db2 : Db) :
    createOrder u rq orderNumber now db = (Except.ok o, db2) →
    o.status = "confirmed" ∧
    o.paymentStatus = (if rq.paymentMethod = "cod" then "pending" else "paid") ∧
    o.trackingHistory = [⟨"confirmed", "", "Order received and confirmed", now⟩] := by
  intro h
  obtain ⟨its, ois, sub, sus, _, _, _, _, _, _, _, hSt, hPay, hTH, _⟩ :=
    createOrder_ok_inv u rq orderNumber now db o db2 h
  exact ⟨hSt, hPay, hTH⟩

/-- C8: on every persisted order the stored subtotal is the sum of resolved
unit price times quantity over the stored line items, the tax is 16% of the
subtotal and the total is subtotal plus shipping plus tax, each within one
cent after amount sanitization. -/
theorem createOrder_totals (u : User) (rq : CreateOrderReq) (orderNumber : String)
    (now : Nat) (db : Db) (o : Order) (db2 : Db) :
    createOrder u rq orderNumber now db = (Except.ok o, db2) →
    |o.subtotal - (o.items.map (fun i => i.price * (i.quantity : ℚ))).sum| ≤ 1 / 100 ∧
    |o.tax - o.subtotal * 0.16| ≤ 1 / 100 ∧
    |o.total - (o.subtotal + o.shippingCost + o.tax)| ≤ 1 / 100 := by
  intro h
  obtain ⟨its, ois, sub, sus, _, hProc, hItems, hSub, hShip, hTax, hTot, _, _, _, _⟩ :=
    createOrder_ok_inv u rq orderNumber now db o db2 h
  have hsum := processItems_subtotal db its ois sub sus hProc
  refine ⟨?_, ?_, ?_⟩
  · rw [hItems, hSub, ← hsum]
    calc |sanitizeAmount sub - sub| ≤ 1 / 200 := abs_round2_sub sub
    _ ≤ 1 / 100 := by norm_num
  · rw [hTax, hSub]
    calc |sanitizeAmount (sanitizeAmount sub * 0.16) - sanitizeAmount sub * 0.16| ≤ 1 / 200 :=
      abs_round2_sub _
    _ ≤ 1 / 100 := by norm_num
  · rw [hTot, hSub, hShip, hTax]
    have hfix : sanitizeAmount (sanitizeAmount sub + sanitizeAmount rq.shippingCost +
        sanitizeAmount (sanitizeAmount sub * 0.16)) =
        sanitizeAmount sub + sanitizeAmount rq.shippingCost +
          sanitizeAmount (sanitizeAmount sub * 0.16) :=
      round2_add_three (round2_form sub) (round2_form rq.shippingCost)
        (round2_form (sanitizeAmount sub * 0.16))
    rw [hfix, sub_self, abs_zero]
    norm_num

/-- C2 (amended): on every persisted order each stored unit price is the
authoritative resolution for the looked-up product: the matching size-price
entry when its price is nonzero, else the flat product price when present and
nonzero, else the client-submitted item price; since the product schema
declares no flat price field, the fallback for a missing size match is the
client-submitted price. -/
theorem createOrder_price_resolution (u : User) (rq : CreateOrderReq) (orderNumber : String)
    (now : Nat) (db : Db) (o : Order) (db2 : Db) (its : List ReqItem) :
    (rq.items = some its →
      createOrder u rq orderNumber now db = (Except.ok o, db2) →
      List.Forall₂
        (fun it oi => ∃ p, findById db (jsProductId it) = some p ∧ oi.price = resolveItemPrice p it)
        its o.items)
  ∧ (∀ (p : Product) (it : ReqItem) (sp : SizePrice),
      List.find? (fun s => s.size == it.size) p.sizes = some sp → sp.price ≠ 0 →
      resolveItemPrice p it = sp.price)
  ∧ (∀ (p : Product) (it : ReqItem),
      List.find? (fun s => s.size == it.size) p.sizes = none → p.price = none →
      resolveItemPrice p it = it.price) := by
  refine ⟨?_, ?_, ?_⟩
  · intro hIts h
    obtain ⟨its2, ois, sub, sus, hIts2, hProc, hItems, _, _, _, _, _, _, _, _⟩ :=
      createOrder_ok_inv u rq orderNumber now db o db2 h
    have : its2 = its := by rw [hIts] at hIts2; exact (Option.some.injEq _ _ ▸ hIts2).symm
    subst this
    rw [hItems]
    exact processItems_prices db its2 ois sub sus hProc
  · intro p it sp hfind hne
    unfold resolveItemPrice
    rw [hfind]
    simp [jsOrQ, hne]
  · intro p it hfind hnone
    unfold resolveItemPrice
    rw [hfind, hnone]
    simp [jsOrQ]

/-! ## Concrete scenarios for witnesses and counterexamples -/

/-- Valid shipping address used by the concrete scenarios. -/
def wAddr : Address :=
  { firstName := "A", lastName := "B", email := "a@b.c", phone := "0712345678",
    address := "X", city := "N", county := "N", country := "Kenya", postalCode := "" }

/-- Non-admin customer used by the concrete scenarios. -/
def wUser : User := { id := 7, userType := "user", role := "customer" }

/-- Catalog product with one size price and ten units in stock. -/
def wProduct : Product :=
  { id := 1, name := "Beans", sizes := [{ size := "250g", price := 500 }],
    images := [], inventory := { stock := 10, lowStockAlert := 5 }, inStock := true }

/-- Catalog holding only `wProduct`. -/
def wDb : Db := [wProduct]

/-- Valid cart line: two units of the 250g size. -/
def wItem : ReqItem :=
  { product := some 1, name := "Beans", price := 500, quantity := 2, size := "250g" }

/-- Well-formed cash-on-delivery request whose client total matches the
server recomputation (1000 + 100 + 160). -/
def wReq : CreateOrderReq :=
  { shippingAddress := wAddr, paymentMethod := "cod", items := some [wItem],
    shippingCost := 100, totalAmount := 1260 }

/-- Order persisted for `wReq`. -/
def wOrder : Order :=
  { orderNumber := "ORD-W", user := 7,
    items := [{ product := 1, name := "Beans", price := 500, quantity := 2, size := "250g",
                image := "/default-product.jpg", itemTotal := 1000 }],
    shippingAddress := wAddr,
    subtotal := 1000, shippingCost := 100, tax := 160, total := 1260,
    paymentMethod := "cod", paymentStatus := "pending", status := "confirmed",
    notes := "", trackingNumber := "", adminNotes := "", statusUpdatedAt := none,
    trackingHistory := [⟨"confirmed", "", "Order received and confirmed", 9⟩] }

/-- Catalog after `wReq` committed: stock decreased from ten to eight. -/
def wDb2 : Db :=
  [{ id := 1, name := "Beans", sizes := [{ size := "250g", price := 500 }],
     images := [], inventory := { stock := 8, lowStockAlert := 5 }, inStock := true }]

/-- Line-item prices stored on an order. -/
def orderPrices (o : Order) : List ℚ := List.map OrderItem.price o.items

/-- Stock and derived flag of a product. -/
def productStockFlag (p : Product) : Int × Bool := (p.inventory.stock, p.inStock)

/-- Pending order used for the transition-table witness. -/
def w4Order : Order :=
  { orderNumber := "ORD-4", user := 7, items := [], shippingAddress := wAddr,
    subtotal := 0, shippingCost := 0, tax := 0, total := 0,
    paymentMethod := "cod", paymentStatus := "pending", status := "pending",
    notes := "", trackingHistory := [] }

/-- Confirmation request for `w4Order`. -/
def w4Req : UpdateStatusReq := { status := "confirmed" }

/-- Result of confirming `w4Order`. -/
def w4Order2 : Order :=
  { orderNumber := "ORD-4", user := 7, items := [], shippingAddress := wAddr,
    subtotal := 0, shippingCost := 0, tax := 0, total := 0,
    paymentMethod := "cod", paymentStatus := "pending", status := "confirmed",
    notes := "", trackingNumber := "", adminNotes := "", statusUpdatedAt := some 5,
    trackingHistory := [⟨"confirmed", "", "Order status updated to confirmed", 5⟩] }

/-- Processing order without a tracking number. -/
def w5Order : Order :=
  { orderNumber := "ORD-5", user := 7, items := [], shippingAddress := wAddr,
    subtotal := 0, shippingCost := 0, tax := 0, total := 0,
    paymentMethod := "cod", paymentStatus := "pending", status := "processing",
    notes := "", trackingHistory := [] }

/-- Shipping request supplying a tracking number. -/
def w5Req : UpdateStatusReq := { status := "shipped", trackingNumber := "TRK1" }

/-- Confirmed order with one history entry. -/
def w10Order : Order :=
  { orderNumber := "ORD-10", user := 7, items := [], shippingAddress := wAddr,
    subtotal := 0, shippingCost := 0, tax := 0, total := 0,
    paymentMethod := "mpesa", paymentStatus := "paid", status := "confirmed",
    notes := "", trackingHistory := [⟨"confirmed", "", "Order received and confirmed", 1⟩] }

/-- Status refresh to the current status of `w10Order`. -/
def w10Req : UpdateStatusReq := { status := "confirmed", location := "NBO" }

/-- Result of refreshing `w10Order`: one entry appended all the same. -/
def w10Order2 : Order :=
  { orderNumber := "ORD-10", user := 7, items := [], shippingAddress := wAddr,
    subtotal := 0, shippingCost := 0, tax := 0, total := 0,
    paymentMethod := "mpesa", paymentStatus := "paid", status := "confirmed",
    notes := "", trackingNumber := "", adminNotes := "", statusUpdatedAt := some 5,
    trackingHistory := [⟨"confirmed", "", "Order received and confirmed", 1⟩,
                        ⟨"confirmed", "NBO", "Order status updated to confirmed", 5⟩] }

/-- Request identical to `wReq` except for a client total 3840 units above the
server recomputation of 1160. -/
def c1Req : CreateOrderReq :=
  { shippingAddress := wAddr, paymentMethod := "cod", items := some [wItem],
    shippingCost := 0, totalAmount := 5000 }

/-- Product whose only size price is 250g; the claimed size 500g of `c2Item`
has no entry. -/
def c2Product : Product :=
  { id := 1, name := "Beans", sizes := [{ size := "250g", price := 500 }],
    images := [], inventory := { stock := 10, lowStockAlert := 5 }, inStock := true }

/-- Cart line claiming size 500g at a client-chosen price of 999. -/
def c2Item : ReqItem :=
  { product := some 1, name := "Beans", price := 999, quantity := 1, size := "500g" }

/-- Request whose client total matches the server total computed from the
client-submitted price (999 + 100 + 159.84). -/
def c2Req : CreateOrderReq :=
  { shippingAddress := wAddr, paymentMethod := "cod", items := some [c2Item],
    shippingCost := 100, totalAmount := 1258.84 }

/-- Cart line requesting the non-integral quantity 2.5. -/
def c6Item : ReqItem :=
  { product := some 1, name := "Beans", price := 500, quantity := 5 / 2, size := "250g" }

/-- Request carrying `c6Item`; the client total matches the server total for
the truncated quantity 2 (1000 + 0 + 160). -/
def c6Req : CreateOrderReq :=
  { shippingAddress := wAddr, paymentMethod := "card", items := some [c6Item],
    shippingCost := 0, totalAmount := 1160 }

/-- Request with an empty items array. -/
def w6Req : CreateOrderReq :=
  { shippingAddress := wAddr, paymentMethod := "cod", items := some [],
    shippingCost := 0, totalAmount := 0 }

/-- Second product, with a single unit in stock. -/
def c3Mug : Product :=
  { id := 2, name := "Mug", sizes := [{ size := "250g", price := 300 }],
    images := [], inventory := { stock := 1, lowStockAlert := 5 }, inStock := true }

/-- Catalog with `wProduct` and `c3Mug`. -/
def c3Db : Db := [wProduct, c3Mug]

/-- First cart line, satisfiable from stock. -/
def c3ItemA : ReqItem :=
  { product := some 1, name := "Beans", price := 500, quantity := 1, size := "250g" }

/-- Second cart line, requesting five units of the single-unit product. -/
def c3ItemB : ReqItem :=
  { product := some 2, name := "Mug", price := 300, quantity := 5, size := "250g" }

/-- Request whose second line exceeds the available stock. -/
def c3Req : CreateOrderReq :=
  { shippingAddress := wAddr, paymentMethod := "cod", items := some [c3ItemA, c3ItemB],
    shippingCost := 0, totalAmount := 0 }

/-- Product with three units in stock for the duplicate-line scenario. -/
def c9Product : Product :=
  { id := 1, name := "Beans", sizes := [{ size := "250g", price := 500 }],
    images := [], inventory := { stock := 3, lowStockAlert := 5 }, inStock := true }

/-- Catalog holding only `c9Product`. -/
def c9Db : Db := [c9Product]

/-- Cart line for two units of `c9Product`. -/
def c9Item : ReqItem :=
  { product := some 1, name := "Beans", price := 500, quantity := 2, size := "250g" }

/-- Request listing the same product on two lines, two units each, against a
stock of three; the client total matches the server total (2000 + 0 + 320). -/
def c9Req : CreateOrderReq :=
  { shippingAddress := wAddr, paymentMethod := "cod", items := some [c9Item, c9Item],
    shippingCost := 0, totalAmount := 2320 }

/-! ## Counterexamples and code-bug evaluation -/

/-- C2 counterexample: with no matching size entry and no flat price on the
schema, the placement succeeds and stores the client-submitted unit price 999
on the order, so the client price is used as the stored price. -/
theorem createOrder_client_price_used :
    (createOrder wUser c2Req "ORD-C2" 0 [c2Product]).1.toOption.map orderPrices =
      some [c2Item.price] ∧
    c2Item.price = 999 ∧
    List.find? (fun sp => sp.size == c2Item.size) c2Product.sizes = none ∧
    c2Product.price = none ∧
    resolveItemPrice c2Product c2Item = c2Item.price := by
  exact ⟨by decide, rfl, by decide, rfl, by decide⟩

/-- C6 counterexample: a line item whose quantity 2.5 is not a positive
integer passes the truthiness validation and the whole placement succeeds
instead of being rejected with a 400 error. -/
theorem createOrder_accepts_noninteger_quantity :
    itemValid c6Item = true ∧
    c6Item.quantity = 5 / 2 ∧
    c6Item.quantity.den = 2 ∧
    (createOrder wUser c6Req "ORD-C6" 0 wDb).1.toOption.isSome = true := by
  exact ⟨by decide, rfl, by decide, by decide⟩

/-- C9: a cart listing the same product on two lines, each within stock on
its own but exceeding it together, is accepted, and the decrement loop
persists a negative stock of -1 while leaving `inStock` true — the schema
minimum of zero on stock and the stock invariant are both violated. -/
theorem createOrder_duplicate_product_negative_stock :
    (createOrder wUser c9Req "ORD-C9" 0 c9Db).1.toOption.isSome = true ∧
    (findById (createOrder wUser c9Req "ORD-C9" 0 c9Db).2 1).map productStockFlag =
      some (-1, true) := by
  exact ⟨by decide, by decide⟩

/-! ## Witnesses -/

/-- Witness for the amount guard: a client total of 5000 against a server
total of 1160 is rejected with the 400 amount-validation failure and the
catalog is unchanged. -/
theorem createOrder_amount_guard_witness :
    createOrder wUser c1Req "ORD-C1" 0 wDb = (Except.error CreateErr.amountValidation, wDb) ∧
    createErrStatus CreateErr.amountValidation = 400 :=
  createOrder_amount_guard wUser c1Req "ORD-C1" 0 wDb [wItem]
    [{ product := 1, name := "Beans", price := 500, quantity := 2, size := "250g",
       image := "/default-product.jpg", itemTotal := 1000 }] 1000
    [{ productId := 1, quantity := 2, currentStock := 10 }] 500000
    (by decide) rfl (by decide) (by decide) (by decide) (by decide) (by decide)
    (by decide) (by decide)

/-- Witness for the insufficient-stock behaviour: the second cart line of
`c3Req` requests five units of the single-unit product, the request fails
with the 400 stock error naming that product, and the catalog — the first
line included — is unchanged. -/
theorem createOrder_insufficient_stock_witness :
    createOrder wUser c3Req "ORD-C3" 0 c3Db =
      (Except.error (CreateErr.insufficientStock c3Mug.name c3Mug.inventory.stock
        c3ItemB.quantity), c3Db) ∧
    createErrStatus (CreateErr.insufficientStock c3Mug.name c3Mug.inventory.stock
      c3ItemB.quantity) = 400 ∧
    createErrMessage (CreateErr.insufficientStock c3Mug.name c3Mug.inventory.stock
      c3ItemB.quantity) =
      "Insufficient stock for " ++ c3Mug.name ++ ". Available: " ++
        toString c3Mug.inventory.stock ++ ", Requested: " ++ toString c3ItemB.quantity :=
  createOrder_insufficient_stock wUser c3Req "ORD-C3" 0 c3Db [c3ItemA] c3ItemB [] c3Mug
    (by decide) rfl (by decide) (by decide) (by decide)
    (by
      intro j hj
      rw [List.mem_singleton] at hj
      subst hj
      exact ⟨by decide, ⟨wProduct, by decide, by decide⟩⟩)
    (by decide) (by decide) (by decide)

/-- Witness for the transition table: confirming a pending order succeeds,
so `confirmed` is in the table row of `pending`. -/
theorem updateOrderStatus_transition_table_witness :
    w4Req.status ∈ validTransitions w4Order.status :=
  (updateOrderStatus_transition_table w4Order w4Req 5 w4Order2 "x" "y").1
    (by decide) (by decide) (by decide)

/-- Witness for the shipped-tracking rule: shipping a processing order with
tracking number TRK1 succeeds and persists that number. -/
theorem updateOrderStatus_shipped_tracking_witness :
    (updateOrderStatus (some w5Order) w5Req 5).toOption.map Order.trackingNumber =
      some w5Req.trackingNumber :=
  (updateOrderStatus_shipped_tracking w5Order w5Req 5).2.2 rfl (by decide)
    (Or.inl (by decide))

/-- Witness for the structural validation: an empty items array is rejected
with the 400 items-required failure and the catalog is unchanged. -/
theorem createOrder_structural_validation_witness :
    createOrder wUser w6Req "ORD-C6W" 0 wDb = (Except.error CreateErr.itemsRequired, wDb) ∧
    createErrStatus CreateErr.itemsRequired = 400 :=
  (createOrder_structural_validation wUser w6Req "ORD-C6W" 0 wDb (by decide)).1 (Or.inr rfl)

/-- Witness for the initial order state: the order persisted for `wReq`
starts confirmed, with pending payment for cash on delivery and the
confirmed first history entry. -/
theorem createOrder_initial_state_witness :
    wOrder.status = "confirmed" ∧
    wOrder.paymentStatus = (if wReq.paymentMethod = "cod" then "pending" else "paid") ∧
    wOrder.trackingHistory = [⟨"confirmed", "", "Order received and confirmed", 9⟩] :=
  createOrder_initial_state wUser wReq "ORD-W" 9 wDb wOrder wDb2 (by decide)

/-- Witness for the totals: the order persisted for `wReq` satisfies the
three one-cent bounds. -/
theorem createOrder_totals_witness :
    |wOrder.subtotal - (wOrder.items.map (fun i => i.price * (i.quantity : ℚ))).sum| ≤ 1 / 100 ∧
    |wOrder.tax - wOrder.subtotal * 0.16| ≤ 1 / 100 ∧
    |wOrder.total - (wOrder.subtotal + wOrder.shippingCost + wOrder.tax)| ≤ 1 / 100 :=
  createOrder_totals wUser wReq "ORD-W" 9 wDb wOrder wDb2 (by decide)

/-- Witness for the price resolution: every line of the order persisted for
`wReq` stores the authoritative resolved price of its product. -/
theorem createOrder_price_resolution_witness :
    List.Forall₂
      (fun it oi => ∃ p, findById wDb (jsProductId it) = some p ∧ oi.price = resolveItemPrice p it)
      [wItem] wOrder.items :=
  (createOrder_price_resolution wUser wReq "ORD-W" 9 wDb wOrder wDb2 [wItem]).1 rfl (by decide)

/-- Witness for the history append: refreshing `w10Order` to its current
status still appends exactly one entry, keeps the old entries and stamps
`statusUpdatedAt`. -/
theorem updateOrderStatus_appends_history_witness :
    w10Order2.trackingHistory.length = w10Order.trackingHistory.length + 1 ∧
    w10Order2.trackingHistory.take w10Order.trackingHistory.length = w10Order.trackingHistory ∧
    w10Order2.statusUpdatedAt = some 5 :=
  updateOrderStatus_appends_history w10Order w10Req 5 w10Order2 (by decide)

end Rerendet
